import Mathlib

/-!
Shallow embedding of the Camp Half-Blood portal server (`webserver.py`),
restricted to the parts the specification's claims are about: the
link-code → session exchange (`generate_link_code`, `_api_verify_link_code`,
`_create_session`, `_get_session`, `_api_logout`, the two cleanup sweeps)
and the mail mutations (`DatabaseManager.mark_mail_read`, `delete_mail`,
and their handlers).

Modelling decisions:
- `datetime.now()` is an explicit `now : Int` parameter (seconds);
  `timedelta(minutes=10)` is `10*60`, `timedelta(days=7)` is `7*24*60*60`.
- Python `Dict[str, ...]` is a function `String → Option α`; insertion,
  deletion and the sweep comprehensions are pointwise updates.
- `secrets.token_hex(...)` outputs are explicit parameters (`code`, `tok`):
  the embedding is parametric in the random values the code draws.
- Python's `str.upper().strip()` is modelled on the ASCII fragment the
  codes live in: `Char.toUpper` per character, then dropping Python
  whitespace from both ends.
-/

/-- The set of characters Python's un-argumented `str.strip()` removes
(space, tab, newline, carriage return, vertical tab, form feed). -/
def pyIsSpace (c : Char) : Bool :=
  c == ' ' || c == Char.ofNat 9 || c == Char.ofNat 10 || c == Char.ofNat 13 ||
  c == Char.ofNat 11 || c == Char.ofNat 12

/-- Python `str.upper()` on the ASCII fragment: uppercase each character. -/
def pyUpper (s : String) : String :=
  String.mk (s.data.map Char.toUpper)

/-- Python `str.strip()`: remove whitespace from both ends. -/
def pyStrip (s : String) : String :=
  String.mk (((s.data.dropWhile pyIsSpace).reverse.dropWhile pyIsSpace).reverse)

/-- The normalization `data.get('code', '').upper().strip()` applied to the
user-supplied code in `_api_verify_link_code`. -/
def normalizeCode (s : String) : String :=
  pyStrip (pyUpper s)

/-- A Python `Dict[str, α]` modelled as a partial map. -/
abbrev Dict (α : Type) : Type := String → Option α

/-- `m[k] = v` (dict assignment). -/
def dictInsert (m : Dict α) (k : String) (v : α) : Dict α :=
  fun q => if q = k then some v else m q

/-- `del m[k]` / `m.pop(k)`'s effect on the dict. -/
def dictErase (m : Dict α) (k : String) : Dict α :=
  fun q => if q = k then none else m q

/-- An entry of `self.pending_link_codes`:
`{discord_id, discord_username, created_at, expires_at}`. -/
structure LinkData where
  discord_id : Int
  discord_username : String
  created_at : Int
  expires_at : Int
deriving DecidableEq, Repr

/-- An entry of `self.sessions`:
`{discord_id, discord_username, created_at, expires_at}`. -/
structure SessionData where
  discord_id : Int
  discord_username : String
  created_at : Int
  expires_at : Int
deriving DecidableEq, Repr

/-- The mutable in-process state of `CampHalfBloodServer`. -/
structure ServerState where
  pending_link_codes : Dict LinkData
  sessions : Dict SessionData

/-- `_cleanup_expired_codes`: delete every code with `expires_at < now`. -/
def cleanup_expired_codes (m : Dict LinkData) (now : Int) : Dict LinkData :=
  fun k =>
    match m k with
    | some d => if d.expires_at < now then none else some d
    | none => none

/-- `_cleanup_expired_sessions`: delete every session with `expires_at < now`. -/
def cleanup_expired_sessions (m : Dict SessionData) (now : Int) : Dict SessionData :=
  fun k =>
    match m k with
    | some s => if s.expires_at < now then none else some s
    | none => none

/-- The loop in `generate_link_code` that deletes every pending code whose
`discord_id` equals the issuing user's id. -/
def deleteCodesFor (m : Dict LinkData) (did : Int) : Dict LinkData :=
  fun k =>
    match m k with
    | some d => if d.discord_id = did then none else some d
    | none => none

/-- `generate_link_code(discord_id, discord_username)`: sweep expired codes,
delete this user's existing code, insert a fresh code with a 10-minute
deadline.  The freshly drawn `secrets.token_hex(3).upper()` value is the
`code` parameter. -/
def generate_link_code (st : ServerState) (did : Int) (name : String)
    (now : Int) (code : String) : String × ServerState :=
  let codes1 := cleanup_expired_codes st.pending_link_codes now
  let codes2 := deleteCodesFor codes1 did
  let codes3 := dictInsert codes2 code ⟨did, name, now, now + 10*60⟩
  (code, { st with pending_link_codes := codes3 })

/-- `_create_session(discord_id, discord_username)`: sweep expired sessions,
then store a 7-day session under the freshly drawn token `tok`. -/
def create_session (st : ServerState) (did : Int) (name : String)
    (now : Int) (tok : String) : String × ServerState :=
  let sessions1 := cleanup_expired_sessions st.sessions now
  let sessions2 := dictInsert sessions1 tok ⟨did, name, now, now + 7*24*60*60⟩
  (tok, { st with sessions := sessions2 })

/-- Outcome of `POST /api/auth/link` (`_api_verify_link_code`):
HTTP 400 (`clientError`), HTTP 401 (`invalidOrExpired`), or the success
JSON body. -/
inductive RedeemResult where
  | clientError
  | invalidOrExpired
  | success (session_token : String) (discord_id : Int)
      (discord_username : String) (expires_in : Int)
deriving DecidableEq, Repr

/-- Whether a redemption outcome is the HTTP 200 success. -/
def RedeemResult.isSuccess : RedeemResult → Bool
  | .success .. => true
  | _ => false

/-- `_api_verify_link_code`: normalize the input, reject empty input with
400, sweep expired codes, look the code up (401 when absent), else pop it
and mint a session.  `tok` is the `secrets.token_hex(32)` draw. -/
def api_verify_link_code (st : ServerState) (raw : String) (now : Int)
    (tok : String) : RedeemResult × ServerState :=
  if normalizeCode raw = "" then
    (RedeemResult.clientError, st)
  else
    match cleanup_expired_codes st.pending_link_codes now (normalizeCode raw) with
    | none =>
        (RedeemResult.invalidOrExpired,
          { st with pending_link_codes := cleanup_expired_codes st.pending_link_codes now })
    | some link_data =>
        let codes1 := dictErase (cleanup_expired_codes st.pending_link_codes now) (normalizeCode raw)
        let st1 := { st with pending_link_codes := codes1 }
        let res := create_session st1 link_data.discord_id link_data.discord_username now tok
        (RedeemResult.success res.1 link_data.discord_id link_data.discord_username (7*24*60*60),
          res.2)

/-- `_get_session`: read `X-Session-Token` (absent or empty → `none`), look
the session up, and lazily evict it when `expires_at < now`.  Returns the
session (if valid) together with the resulting state. -/
def get_session (st : ServerState) (token : Option String) (now : Int) :
    Option SessionData × ServerState :=
  match token with
  | none => (none, st)
  | some t =>
    if t = "" then (none, st)
    else
      match st.sessions t with
      | none => (none, st)
      | some s =>
        if s.expires_at < now then
          (none, { st with sessions := dictErase st.sessions t })
        else (some s, st)

/-- `_api_logout`: delete the session if the header names a live one;
the response is `{'success': True}` unconditionally. -/
def api_logout (st : ServerState) (token : Option String) : ServerState × Bool :=
  (match token with
   | none => st
   | some t =>
     if t ≠ "" ∧ (st.sessions t).isSome then
       { st with sessions := dictErase st.sessions t }
     else st,
   true)

/-- A row of the `mail` table as the mail queries touch it:
`mail_id`, owner `user_id`, and the `is_read` flag. -/
structure MailRow where
  mail_id : Int
  user_id : Int
  is_read : Bool
deriving DecidableEq, Repr

/-- `DatabaseManager.mark_mail_read`:
`UPDATE mail SET is_read = 1 WHERE mail_id = %s` — filtered by `mail_id`
only, with no owner column in the WHERE clause. -/
def mark_mail_read (table : List MailRow) (mid : Int) : List MailRow :=
  table.map (fun r => if r.mail_id = mid then { r with is_read := true } else r)

/-- `DatabaseManager.delete_mail`:
`DELETE FROM mail WHERE mail_id = %s AND user_id = %s` — filtered by both
`mail_id` and the owner. -/
def delete_mail (table : List MailRow) (mid : Int) (uid : Int) : List MailRow :=
  table.filter (fun r => !(r.mail_id == mid && r.user_id == uid))

/-- `_api_mark_mail_read`: authenticate, then call
`db.mark_mail_read(mail_id)` — the session's identity is not passed on. -/
def api_mark_mail_read (st : ServerState) (token : Option String) (now : Int)
    (table : List MailRow) (mid : Int) : List MailRow × Bool :=
  match (get_session st token now).1 with
  | none => (table, false)
  | some _ => (mark_mail_read table mid, true)

/-- `_api_delete_mail`: authenticate, then call
`db.delete_mail(mail_id, session['discord_id'])`. -/
def api_delete_mail (st : ServerState) (token : Option String) (now : Int)
    (table : List MailRow) (mid : Int) : List MailRow × Bool :=
  match (get_session st token now).1 with
  | none => (table, false)
  | some sess => (delete_mail table mid sess.discord_id, true)

/-- The entry points that can mutate the server's two maps, as a trace
alphabet: code issuance, redemption attempts, logout, and session checks
(the authenticated handlers touch the maps only through `_get_session`,
covered by `check`). -/
inductive Op where
  | issue (did : Int) (name : String) (now : Int) (code : String)
  | redeem (raw : String) (now : Int) (tok : String)
  | logout (token : Option String)
  | check (token : Option String) (now : Int)

/-- The state transition each entry point performs. -/
def Op.apply (st : ServerState) : Op → ServerState
  | .issue did name now code => (generate_link_code st did name now code).2
  | .redeem raw now tok => (api_verify_link_code st raw now tok).2
  | .logout token => (api_logout st token).1
  | .check token now => (get_session st token now).2

/-- Whether an operation is an issuance that stores the code value `c`. -/
def Op.issuesCode : Op → String → Bool
  | .issue _ _ _ code, c => code == c
  | _, _ => false

/-- Server state with no pending codes and no sessions. -/
def emptyState : ServerState :=
  ⟨fun _ => none, fun _ => none⟩

/-- Server state holding the single pending link code `c ↦ ld`. -/
def stateWithCode (c : String) (ld : LinkData) : ServerState :=
  ⟨fun k => if k = c then some ld else none, fun _ => none⟩

/-- Server state holding the single session `t ↦ s`. -/
def stateWithSession (t : String) (s : SessionData) : ServerState :=
  ⟨fun _ => none, fun k => if k = t then some s else none⟩

/-- At most one pending link code per external identity: the claimed
link-code invariant. -/
def AtMostOnePerId (m : Dict LinkData) : Prop :=
  ∀ k1 k2 d1 d2, m k1 = some d1 → m k2 = some d2 →
    d1.discord_id = d2.discord_id → k1 = k2

theorem cleanup_expired_codes_none (m : Dict LinkData) (now : Int) (k : String)
    (h : m k = none) : cleanup_expired_codes m now k = none := by
  simp [cleanup_expired_codes, h]

theorem cleanup_expired_codes_some (m : Dict LinkData) (now : Int) (k : String)
    (d : LinkData) (h : cleanup_expired_codes m now k = some d) :
    m k = some d ∧ ¬(d.expires_at < now) := by
  unfold cleanup_expired_codes at h
  cases hm : m k with
  | none => rw [hm] at h; simp at h
  | some d2 =>
      rw [hm] at h
      by_cases hd : d2.expires_at < now
      · simp [hd] at h
      · simp [hd] at h
        subst h
        exact ⟨rfl, hd⟩

theorem cleanup_expired_codes_keep (m : Dict LinkData) (now : Int) (k : String)
    (d : LinkData) (h : m k = some d) (hd : ¬(d.expires_at < now)) :
    cleanup_expired_codes m now k = some d := by
  simp [cleanup_expired_codes, h, hd]

theorem deleteCodesFor_some (m : Dict LinkData) (did : Int) (k : String)
    (d : LinkData) (h : deleteCodesFor m did k = some d) :
    m k = some d ∧ d.discord_id ≠ did := by
  unfold deleteCodesFor at h
  cases hm : m k with
  | none => rw [hm] at h; simp at h
  | some d2 =>
      rw [hm] at h
      by_cases hd : d2.discord_id = did
      · simp [hd] at h
      · simp [hd] at h
        subst h
        exact ⟨rfl, hd⟩

theorem logout_pending (st : ServerState) (token : Option String) :
    ((api_logout st token).1).pending_link_codes = st.pending_link_codes := by
  unfold api_logout
  cases token with
  | none => rfl
  | some t => dsimp only; split <;> rfl

theorem get_session_pending (st : ServerState) (token : Option String) (now : Int) :
    ((get_session st token now).2).pending_link_codes = st.pending_link_codes := by
  unfold get_session
  cases token with
  | none => rfl
  | some t =>
      dsimp only
      split
      · rfl
      · cases hm : st.sessions t with
        | none => rfl
        | some s => dsimp only; split <;> rfl

theorem redeem_empty (st : ServerState) (raw : String) (now : Int) (tok : String)
    (h : normalizeCode raw = "") :
    api_verify_link_code st raw now tok = (RedeemResult.clientError, st) := by
  simp [api_verify_link_code, h]

theorem redeem_absent (st : ServerState) (raw : String) (now : Int) (tok : String)
    (hne : normalizeCode raw ≠ "")
    (h : cleanup_expired_codes st.pending_link_codes now (normalizeCode raw) = none) :
    api_verify_link_code st raw now tok =
      (RedeemResult.invalidOrExpired,
        { st with pending_link_codes := cleanup_expired_codes st.pending_link_codes now }) := by
  simp [api_verify_link_code, hne, h]

theorem redeem_found (st : ServerState) (raw : String) (now : Int) (tok : String)
    (ld : LinkData) (hne : normalizeCode raw ≠ "")
    (h : cleanup_expired_codes st.pending_link_codes now (normalizeCode raw) = some ld) :
    api_verify_link_code st raw now tok =
      (RedeemResult.success tok ld.discord_id ld.discord_username (7*24*60*60),
        { pending_link_codes :=
            dictErase (cleanup_expired_codes st.pending_link_codes now) (normalizeCode raw),
          sessions :=
            dictInsert (cleanup_expired_sessions st.sessions now) tok
              ⟨ld.discord_id, ld.discord_username, now, now + 7*24*60*60⟩ }) := by
  simp [api_verify_link_code, hne, h, create_session]

theorem redeem_success_shape (st : ServerState) (raw : String) (now : Int) (tok : String)
    (hs : ((api_verify_link_code st raw now tok).1).isSuccess = true) :
    normalizeCode raw ≠ "" ∧
    ∃ ld, cleanup_expired_codes st.pending_link_codes now (normalizeCode raw) = some ld := by
  by_cases hne : normalizeCode raw = ""
  · rw [redeem_empty st raw now tok hne] at hs
    simp [RedeemResult.isSuccess] at hs
  · refine ⟨hne, ?_⟩
    cases hm : cleanup_expired_codes st.pending_link_codes now (normalizeCode raw) with
    | none =>
        rw [redeem_absent st raw now tok hne hm] at hs
        simp [RedeemResult.isSuccess] at hs
    | some ld => exact ⟨ld, rfl⟩

theorem redeem_success_pending_none (st : ServerState) (raw : String) (now : Int) (tok : String)
    (hs : ((api_verify_link_code st raw now tok).1).isSuccess = true) :
    (api_verify_link_code st raw now tok).2.pending_link_codes (normalizeCode raw) = none := by
  obtain ⟨hne, ld, hm⟩ := redeem_success_shape st raw now tok hs
  rw [redeem_found st raw now tok ld hne hm]
  simp [dictErase]

theorem cleanup_expired_codes_sub (m : Dict LinkData) (now : Int) (k : String) :
    cleanup_expired_codes m now k = none ∨ cleanup_expired_codes m now k = m k := by
  cases hc : cleanup_expired_codes m now k with
  | none => exact Or.inl rfl
  | some d =>
      right
      rw [(cleanup_expired_codes_some m now k d hc).1]

theorem pending_none_op (st : ServerState) (op : Op) (c : String)
    (h : st.pending_link_codes c = none) (hop : op.issuesCode c = false) :
    (Op.apply st op).pending_link_codes c = none := by
  cases op with
  | issue did name now code =>
      have hne : ¬(c = code) := by
        intro hc
        subst hc
        simp [Op.issuesCode] at hop
      show (generate_link_code st did name now code).2.pending_link_codes c = none
      have h1 : cleanup_expired_codes st.pending_link_codes now c = none :=
        cleanup_expired_codes_none _ _ _ h
      simp [generate_link_code, dictInsert, hne, deleteCodesFor, h1]
  | redeem raw now tok =>
      show (api_verify_link_code st raw now tok).2.pending_link_codes c = none
      by_cases hne : normalizeCode raw = ""
      · rw [redeem_empty st raw now tok hne]
        exact h
      · cases hm : cleanup_expired_codes st.pending_link_codes now (normalizeCode raw) with
        | none =>
            rw [redeem_absent st raw now tok hne hm]
            exact cleanup_expired_codes_none _ _ _ h
        | some ld =>
            rw [redeem_found st raw now tok ld hne hm]
            by_cases hc : c = normalizeCode raw
            · simp [dictErase, hc]
            · simp only [dictErase, if_neg hc]
              exact cleanup_expired_codes_none _ _ _ h
  | logout token =>
      show ((api_logout st token).1).pending_link_codes c = none
      rw [logout_pending]
      exact h
  | check token now =>
      show ((get_session st token now).2).pending_link_codes c = none
      rw [get_session_pending]
      exact h

theorem pending_none_trace (st : ServerState) (c : String) (ops : List Op)
    (h : st.pending_link_codes c = none)
    (hops : ∀ op ∈ ops, op.issuesCode c = false) :
    (ops.foldl Op.apply st).pending_link_codes c = none := by
  induction ops generalizing st with
  | nil => exact h
  | cons op rest ih =>
      simp only [List.foldl]
      exact ih (Op.apply st op)
        (pending_none_op st op c h (hops op (by simp)))
        (fun o ho => hops o (by simp [ho]))

theorem atMostOne_of_sub (m m2 : Dict LinkData)
    (hsub : ∀ k, m2 k = none ∨ m2 k = m k) (h : AtMostOnePerId m) :
    AtMostOnePerId m2 := by
  intro k1 k2 d1 d2 h1 h2 hid
  rcases hsub k1 with hs1 | hs1
  · rw [hs1] at h1
    exact absurd h1 (by simp)
  · rcases hsub k2 with hs2 | hs2
    · rw [hs2] at h2
      exact absurd h2 (by simp)
    · rw [hs1] at h1
      rw [hs2] at h2
      exact h k1 k2 d1 d2 h1 h2 hid

theorem atMostOne_issue (st : ServerState) (did : Int) (name : String)
    (now : Int) (code : String)
    (h : AtMostOnePerId st.pending_link_codes) :
    AtMostOnePerId ((generate_link_code st did name now code).2.pending_link_codes) := by
  intro k1 k2 d1 d2 h1 h2 hid
  simp only [generate_link_code, dictInsert] at h1 h2
  by_cases hk1 : k1 = code <;> by_cases hk2 : k2 = code
  · rw [hk1, hk2]
  · rw [if_pos hk1] at h1
    rw [if_neg hk2] at h2
    obtain ⟨hm2, hne2⟩ := deleteCodesFor_some _ _ _ _ h2
    injection h1 with h1
    exact absurd (by rw [← hid, ← h1]) hne2
  · rw [if_neg hk1] at h1
    rw [if_pos hk2] at h2
    obtain ⟨hm1, hne1⟩ := deleteCodesFor_some _ _ _ _ h1
    injection h2 with h2
    exact absurd (by rw [hid, ← h2]) hne1
  · rw [if_neg hk1] at h1
    rw [if_neg hk2] at h2
    obtain ⟨hm1, _⟩ := deleteCodesFor_some _ _ _ _ h1
    obtain ⟨hm2, _⟩ := deleteCodesFor_some _ _ _ _ h2
    obtain ⟨hm1b, _⟩ := cleanup_expired_codes_some _ _ _ _ hm1
    obtain ⟨hm2b, _⟩ := cleanup_expired_codes_some _ _ _ _ hm2
    exact h k1 k2 d1 d2 hm1b hm2b hid

theorem atMostOne_op (st : ServerState) (op : Op)
    (h : AtMostOnePerId st.pending_link_codes) :
    AtMostOnePerId ((Op.apply st op).pending_link_codes) := by
  cases op with
  | issue did name now code => exact atMostOne_issue st did name now code h
  | redeem raw now tok =>
      refine atMostOne_of_sub st.pending_link_codes _ ?_ h
      intro k
      show (api_verify_link_code st raw now tok).2.pending_link_codes k = none ∨
        (api_verify_link_code st raw now tok).2.pending_link_codes k = st.pending_link_codes k
      by_cases hne : normalizeCode raw = ""
      · rw [redeem_empty st raw now tok hne]
        exact Or.inr rfl
      · cases hm : cleanup_expired_codes st.pending_link_codes now (normalizeCode raw) with
        | none =>
            rw [redeem_absent st raw now tok hne hm]
            exact cleanup_expired_codes_sub st.pending_link_codes now k
        | some ld =>
            rw [redeem_found st raw now tok ld hne hm]
            by_cases hk : k = normalizeCode raw
            · left
              simp [dictErase, hk]
            · show dictErase (cleanup_expired_codes st.pending_link_codes now)
                (normalizeCode raw) k = none ∨ _ = st.pending_link_codes k
              simp only [dictErase, if_neg hk]
              exact cleanup_expired_codes_sub st.pending_link_codes now k
  | logout token =>
      show AtMostOnePerId ((api_logout st token).1).pending_link_codes
      rw [logout_pending]
      exact h
  | check token now =>
      show AtMostOnePerId ((get_session st token now).2).pending_link_codes
      rw [get_session_pending]
      exact h

theorem pyIsSpace_toUpper (c : Char) (h : pyIsSpace c = true) :
    pyIsSpace c.toUpper = true := by
  simp only [pyIsSpace, Bool.or_eq_true, beq_iff_eq] at h
  rcases h with ((((h | h) | h) | h) | h) | h <;> subst h <;> decide

theorem dropWhile_all (p : Char → Bool) (l : List Char) (h : ∀ c ∈ l, p c = true) :
    l.dropWhile p = [] := by
  induction l with
  | nil => rfl
  | cons a as ih =>
      rw [List.dropWhile_cons, h a (by simp)]
      simp only [if_true]
      exact ih (fun c hc => h c (by simp [hc]))

theorem normalizeCode_whitespace (s : String) (h : ∀ c ∈ s.data, pyIsSpace c = true) :
    normalizeCode s = "" := by
  have h2 : ∀ c ∈ s.data.map Char.toUpper, pyIsSpace c = true := by
    intro c hc
    simp only [List.mem_map] at hc
    obtain ⟨x, hx, rfl⟩ := hc
    exact pyIsSpace_toUpper x (h x hx)
  show pyStrip (pyUpper s) = ""
  unfold pyStrip pyUpper
  rw [show (String.mk (s.data.map Char.toUpper)).data = s.data.map Char.toUpper from rfl]
  rw [dropWhile_all pyIsSpace _ h2]
  rfl

/-- Claim C7: `revoke` (`_api_logout`) always reports success, including for
unknown, already-revoked, or invalid tokens, and it is idempotent: revoking
twice leaves the same state and the same successful response as revoking
once. -/
theorem claim_C7 (st : ServerState) (token : Option String) :
    (api_logout st token).2 = true ∧
    api_logout (api_logout st token).1 token = api_logout st token := by
  refine ⟨rfl, ?_⟩
  cases token with
  | none => rfl
  | some t =>
      by_cases ht : t = ""
      · subst ht
        simp [api_logout]
      · by_cases hs : (st.sessions t).isSome
        · simp [api_logout, ht, hs, dictErase]
        · simp [api_logout, ht, hs]

/-- Claim C8: redeeming with the empty code string is the HTTP 400 client
error, not a 401, and the server state is completely unchanged (no code
lookup side effect, no code mutation, no session creation). -/
theorem claim_C8 (st : ServerState) (now : Int) (tok : String) :
    api_verify_link_code st "" now tok = (RedeemResult.clientError, st) :=
  redeem_empty st "" now tok rfl

/-- Claim C9: successful validation is side-effect-free: when the token's
session is present and unexpired, `_get_session` returns it and the whole
server state (sessions map and link-code map) is exactly the input state. -/
theorem claim_C9 (st : ServerState) (t : String) (s : SessionData) (now : Int)
    (ht : t ≠ "") (hs : st.sessions t = some s) (hv : now ≤ s.expires_at) :
    get_session st (some t) now = (some s, st) := by
  have hlt : ¬(s.expires_at < now) := not_lt.mpr hv
  simp [get_session, ht, hs, hlt]

/-- Example session: identity 42, name rex, issued at 0, 7-day expiry. -/
def sessEx : SessionData := ⟨42, "rex", 0, 604800⟩

theorem claim_C9_witness :
    ("tok1" : String) ≠ "" ∧
    (stateWithSession "tok1" sessEx).sessions "tok1" = some sessEx ∧
    (100:Int) ≤ sessEx.expires_at ∧
    get_session (stateWithSession "tok1" sessEx) (some "tok1") 100 =
      (some sessEx, stateWithSession "tok1" sessEx) :=
  ⟨by decide, by simp [stateWithSession], by decide,
    claim_C9 (stateWithSession "tok1" sessEx) "tok1" sessEx 100 (by decide)
      (by simp [stateWithSession]) (by decide)⟩

/-- Claim C10: an input consisting only of whitespace characters is
trimmed to the empty string before the non-emptiness check, so it gets the
same 400 client error as the empty input, with the state unchanged. -/
theorem claim_C10 (st : ServerState) (s : String) (now : Int) (tok : String)
    (h : ∀ c ∈ s.data, pyIsSpace c = true) :
    api_verify_link_code st s now tok = (RedeemResult.clientError, st) :=
  redeem_empty st s now tok (normalizeCode_whitespace s h)

theorem claim_C10_witness :
    (∀ c ∈ ("  " : String).data, pyIsSpace c = true) ∧
    api_verify_link_code emptyState "  " 0 "tok" = (RedeemResult.clientError, emptyState) :=
  ⟨by decide, claim_C10 emptyState "  " 0 "tok" (by decide)⟩

/-- Example session expiring at time 100, for the expiry-boundary analysis. -/
def sessBoundary : SessionData := ⟨42, "rex", 0, 100⟩

/-- Claim C5 counterexample: at `now = expires_at` the code keeps and
returns the session (`_get_session` only rejects `expires_at < now`), so
"returns the stored session iff now < expires_at" fails at the boundary. -/
theorem claim_C5_counterexample :
    (get_session (stateWithSession "tok1" sessBoundary) (some "tok1") 100).1 =
      some sessBoundary ∧
    ¬((100:Int) < sessBoundary.expires_at) := by
  constructor
  · decide
  · decide

/-- Claim C5 (amended): `_get_session` returns the stored session iff
`now ≤ expires_at` (the code rejects only `expires_at < now`, so the exact
expiry instant still validates); a session strictly past its expiry is
treated as absent and the stale entry is evicted as a side effect. -/
theorem claim_C5 (st : ServerState) (t : String) (s : SessionData) (now : Int)
    (ht : t ≠ "") (hs : st.sessions t = some s) :
    ((get_session st (some t) now).1 = some s ↔ now ≤ s.expires_at) ∧
    (s.expires_at < now →
      (get_session st (some t) now).1 = none ∧
      (get_session st (some t) now).2.sessions t = none) := by
  constructor
  · constructor
    · intro hres
      by_contra hlt
      push_neg at hlt
      simp [get_session, ht, hs, hlt] at hres
    · intro hle
      have hlt : ¬(s.expires_at < now) := not_lt.mpr hle
      simp [get_session, ht, hs, hlt]
  · intro hlt
    constructor
    · simp [get_session, ht, hs, hlt]
    · simp [get_session, ht, hs, hlt, dictErase]

theorem claim_C5_witness :
    (("tok1" : String) ≠ "" ∧
      (stateWithSession "tok1" sessBoundary).sessions "tok1" = some sessBoundary) ∧
    (((get_session (stateWithSession "tok1" sessBoundary) (some "tok1") 200).1 =
        some sessBoundary ↔ (200:Int) ≤ sessBoundary.expires_at) ∧
      (sessBoundary.expires_at < 200 →
        (get_session (stateWithSession "tok1" sessBoundary) (some "tok1") 200).1 = none ∧
        (get_session (stateWithSession "tok1" sessBoundary) (some "tok1") 200).2.sessions
          "tok1" = none)) :=
  ⟨⟨by decide, by simp [stateWithSession]⟩,
    claim_C5 (stateWithSession "tok1" sessBoundary) "tok1" sessBoundary 200 (by decide)
      (by simp [stateWithSession])⟩

/-- Example link code data: identity 42, name rex, issued at 0, expiring
at 100. -/
def ldEx : LinkData := ⟨42, "rex", 0, 100⟩

/-- Claim C1 counterexample: at `now = expires_at` redemption still
succeeds (`_cleanup_expired_codes` removes only `expires_at < now`), so
"succeeds iff ... now < expires_at" fails at the boundary. -/
theorem claim_C1_counterexample :
    ((api_verify_link_code (stateWithCode "AB42CD" ldEx) "ab42cd" 100 "tok").1).isSuccess =
      true ∧
    ¬((100:Int) < ldEx.expires_at) := by
  constructor
  · decide
  · decide

/-- Claim C1 (amended): for a nonempty normalized input, redemption
succeeds iff the normalized form (upper-cased, whitespace-trimmed) is a
stored, unused (still pending) link code with `now ≤ expires_at` (the code
rejects only strictly-past expiries); in every other case the outcome is
the single `InvalidOrExpiredCode` (HTTP 401), with no distinction of
cause. -/
theorem claim_C1 (st : ServerState) (raw : String) (now : Int) (tok : String)
    (hne : normalizeCode raw ≠ "") :
    (((api_verify_link_code st raw now tok).1).isSuccess = true ↔
      ∃ ld, st.pending_link_codes (normalizeCode raw) = some ld ∧ now ≤ ld.expires_at) ∧
    (((api_verify_link_code st raw now tok).1).isSuccess = false →
      (api_verify_link_code st raw now tok).1 = RedeemResult.invalidOrExpired) := by
  cases hm : cleanup_expired_codes st.pending_link_codes now (normalizeCode raw) with
  | none =>
      have hres := redeem_absent st raw now tok hne hm
      constructor
      · rw [hres]
        constructor
        · intro hfalse
          exact absurd hfalse (by simp [RedeemResult.isSuccess])
        · rintro ⟨ld, hld, hle⟩
          have hkeep := cleanup_expired_codes_keep st.pending_link_codes now
            (normalizeCode raw) ld hld (not_lt.mpr hle)
          rw [hm] at hkeep
          exact absurd hkeep (by simp)
      · intro _
        rw [hres]
  | some ld =>
      have hres := redeem_found st raw now tok ld hne hm
      have hsome := cleanup_expired_codes_some st.pending_link_codes now
        (normalizeCode raw) ld hm
      constructor
      · rw [hres]
        constructor
        · intro _
          exact ⟨ld, hsome.1, not_lt.mp hsome.2⟩
        · intro _
          rfl
      · rw [hres]
        intro hfalse
        exact absurd hfalse (by simp [RedeemResult.isSuccess])

theorem claim_C1_witness :
    normalizeCode "ab42cd" ≠ "" ∧
    ((((api_verify_link_code (stateWithCode "AB42CD" ldEx) "ab42cd" 50 "tok").1).isSuccess =
        true ↔
      ∃ ld, (stateWithCode "AB42CD" ldEx).pending_link_codes (normalizeCode "ab42cd") =
          some ld ∧ (50:Int) ≤ ld.expires_at) ∧
    ((((api_verify_link_code (stateWithCode "AB42CD" ldEx) "ab42cd" 50 "tok").1).isSuccess =
        false) →
      (api_verify_link_code (stateWithCode "AB42CD" ldEx) "ab42cd" 50 "tok").1 =
        RedeemResult.invalidOrExpired)) :=
  ⟨by decide, claim_C1 (stateWithCode "AB42CD" ldEx) "ab42cd" 50 "tok" (by decide)⟩

/-- Server state for the mail scenario: caller identity 1 holds the valid
session token tok1. -/
def mailCallerState : ServerState :=
  stateWithSession "tok1" ⟨1, "alice", 0, 604800⟩

/-- Claim C6 evaluated at the failing input: the authenticated caller with
identity 1 marks mail row 5 — owned by identity 2 — as read, because
`DatabaseManager.mark_mail_read` filters by `mail_id` only (no owner column
in its WHERE clause); `delete_mail`, by contrast, does filter by owner and
leaves the foreign row unchanged. -/
theorem claim_C6_bug :
    (api_mark_mail_read mailCallerState (some "tok1") 0
        [⟨5, 2, false⟩] 5).1 = [⟨5, 2, true⟩] ∧
    (api_delete_mail mailCallerState (some "tok1") 0
        [⟨5, 2, false⟩] 5).1 = [⟨5, 2, false⟩] := by
  constructor
  · decide
  · decide

/-- Claim C2: once a redemption of a code has succeeded, every subsequent
redemption attempt with that code fails with the 401
`InvalidOrExpiredCode`, across any interleaving of issuances (of other
code values), redemptions, logouts and session checks: one-time use is
permanent, not just until expiry. -/
theorem claim_C2 (st : ServerState) (raw : String) (now : Int) (tok : String)
    (hs : ((api_verify_link_code st raw now tok).1).isSuccess = true)
    (ops : List Op)
    (hops : ∀ op ∈ ops, op.issuesCode (normalizeCode raw) = false)
    (raw2 : String) (now2 : Int) (tok2 : String)
    (h2 : normalizeCode raw2 = normalizeCode raw) :
    (api_verify_link_code
        (ops.foldl Op.apply ((api_verify_link_code st raw now tok).2))
        raw2 now2 tok2).1 = RedeemResult.invalidOrExpired := by
  obtain ⟨hne, -⟩ := redeem_success_shape st raw now tok hs
  have hnone := redeem_success_pending_none st raw now tok hs
  have htrace := pending_none_trace ((api_verify_link_code st raw now tok).2)
    (normalizeCode raw) ops hnone hops
  have hne2 : normalizeCode raw2 ≠ "" := by
    rw [h2]
    exact hne
  have habs : (ops.foldl Op.apply
      ((api_verify_link_code st raw now tok).2)).pending_link_codes
      (normalizeCode raw2) = none := by
    rw [h2]
    exact htrace
  rw [redeem_absent (ops.foldl Op.apply ((api_verify_link_code st raw now tok).2))
    raw2 now2 tok2 hne2 (cleanup_expired_codes_none _ _ _ habs)]

theorem claim_C2_witness :
    ((api_verify_link_code (stateWithCode "AB42CD" ldEx) "ab42cd" 50 "t1").1).isSuccess =
      true ∧
    (api_verify_link_code
        ([Op.check (some "t1") 60, Op.logout (some "t1")].foldl Op.apply
          ((api_verify_link_code (stateWithCode "AB42CD" ldEx) "ab42cd" 50 "t1").2))
        "AB42CD" 60 "t2").1 = RedeemResult.invalidOrExpired :=
  ⟨by decide,
    claim_C2 (stateWithCode "AB42CD" ldEx) "ab42cd" 50 "t1" (by decide)
      [Op.check (some "t1") 60, Op.logout (some "t1")] (by decide)
      "AB42CD" 60 "t2" (by decide)⟩

theorem generate_pending_at (st : ServerState) (did : Int) (name : String)
    (now : Int) (code : String) (k : String) (hk : k ≠ code) :
    ((generate_link_code st did name now code).2).pending_link_codes k =
      deleteCodesFor (cleanup_expired_codes st.pending_link_codes now) did k := by
  simp [generate_link_code, dictInsert, hk]

theorem deleteCodesFor_cleanup_own (m : Dict LinkData) (did : Int) (now : Int)
    (k : String) (d : LinkData) (h : m k = some d) (hd : d.discord_id = did) :
    deleteCodesFor (cleanup_expired_codes m now) did k = none := by
  simp only [deleteCodesFor, cleanup_expired_codes, h]
  by_cases hexp : d.expires_at < now
  · simp [hexp]
  · simp [hexp, hd]

/-- Claim C3: at most one pending (unused, unexpired) link code exists per
external identity at any time — the property is preserved by every state
transition, issuance included, because `generate_link_code` first deletes
the identity's prior codes — and issuing a second code for the same
identity invalidates the first: the first code (even if unexpired and
unused) afterwards fails to redeem. -/
theorem claim_C3 :
    (∀ (st : ServerState) (op : Op),
      AtMostOnePerId st.pending_link_codes →
      AtMostOnePerId ((Op.apply st op).pending_link_codes)) ∧
    (∀ (st : ServerState) (did : Int) (name1 name2 : String)
        (now1 now2 now3 : Int) (c1 c2 raw tok : String),
      c1 ≠ c2 → normalizeCode raw = c1 → c1 ≠ "" →
      (api_verify_link_code
          ((generate_link_code ((generate_link_code st did name1 now1 c1).2)
            did name2 now2 c2).2) raw now3 tok).1 = RedeemResult.invalidOrExpired) := by
  constructor
  · exact fun st op h => atMostOne_op st op h
  · intro st did name1 name2 now1 now2 now3 c1 c2 raw tok h12 hraw h1ne
    have hself : ((generate_link_code st did name1 now1 c1).2).pending_link_codes c1 =
        some ⟨did, name1, now1, now1 + 10*60⟩ := by
      simp [generate_link_code, dictInsert]
    have hpend : ((generate_link_code ((generate_link_code st did name1 now1 c1).2)
        did name2 now2 c2).2).pending_link_codes c1 = none := by
      rw [generate_pending_at _ did name2 now2 c2 c1 h12]
      exact deleteCodesFor_cleanup_own _ did now2 c1 ⟨did, name1, now1, now1 + 10*60⟩
        hself rfl
    have hne2 : normalizeCode raw ≠ "" := by
      rw [hraw]
      exact h1ne
    rw [redeem_absent _ raw now3 tok hne2
      (cleanup_expired_codes_none _ _ _ (by rw [hraw]; exact hpend))]

theorem claim_C3_witness :
    ("AAA111" : String) ≠ "BBB222" ∧ normalizeCode "AAA111" = "AAA111" ∧
    (api_verify_link_code
        ((generate_link_code ((generate_link_code emptyState 42 "rex" 0 "AAA111").2)
          42 "max" 1 "BBB222").2) "AAA111" 2 "t").1 = RedeemResult.invalidOrExpired :=
  ⟨by decide, by decide,
    claim_C3.2 emptyState 42 "rex" "max" 0 1 2 "AAA111" "BBB222" "AAA111" "t"
      (by decide) (by decide) (by decide)⟩

/-- Claim C4: a successful redemption returns a session whose identity and
display name are copied from the redeemed link code, whose token is the
freshly generated one, and whose `expires_at` is the redemption time plus
7 days; the session is stored under the token, which afterwards resolves
to that identity via `_get_session` for as long as it is unexpired. -/
theorem claim_C4 (st : ServerState) (raw : String) (now : Int) (tok : String)
    (ld : LinkData)
    (hld : st.pending_link_codes (normalizeCode raw) = some ld)
    (hne : normalizeCode raw ≠ "")
    (hexp : ¬(ld.expires_at < now))
    (htok : tok ≠ "") :
    (api_verify_link_code st raw now tok).1 =
      RedeemResult.success tok ld.discord_id ld.discord_username (7*24*60*60) ∧
    (api_verify_link_code st raw now tok).2.sessions tok =
      some ⟨ld.discord_id, ld.discord_username, now, now + 7*24*60*60⟩ ∧
    ∀ now2, ¬(now + 7*24*60*60 < now2) →
      (get_session ((api_verify_link_code st raw now tok).2) (some tok) now2).1 =
        some ⟨ld.discord_id, ld.discord_username, now, now + 7*24*60*60⟩ := by
  have hm := cleanup_expired_codes_keep st.pending_link_codes now
    (normalizeCode raw) ld hld hexp
  have hres := redeem_found st raw now tok ld hne hm
  refine ⟨?_, ?_, ?_⟩
  · rw [hres]
  · rw [hres]
    simp [dictInsert]
  · intro now2 hnow2
    rw [hres]
    have hnow2b : ¬(now + 604800 < now2) := by omega
    simp [get_session, htok, dictInsert, hnow2b]

theorem claim_C4_witness :
    ((stateWithCode "AB42CD" ldEx).pending_link_codes (normalizeCode "ab42cd") =
        some ldEx ∧ normalizeCode "ab42cd" ≠ "" ∧ ¬(ldEx.expires_at < 50) ∧
      ("t1" : String) ≠ "") ∧
    ((api_verify_link_code (stateWithCode "AB42CD" ldEx) "ab42cd" 50 "t1").1 =
        RedeemResult.success "t1" ldEx.discord_id ldEx.discord_username (7*24*60*60) ∧
      (api_verify_link_code (stateWithCode "AB42CD" ldEx) "ab42cd" 50 "t1").2.sessions
          "t1" =
        some ⟨ldEx.discord_id, ldEx.discord_username, 50, 50 + 7*24*60*60⟩ ∧
      ∀ now2, ¬((50:Int) + 7*24*60*60 < now2) →
        (get_session ((api_verify_link_code (stateWithCode "AB42CD" ldEx) "ab42cd"
            50 "t1").2) (some "t1") now2).1 =
          some ⟨ldEx.discord_id, ldEx.discord_username, 50, 50 + 7*24*60*60⟩) :=
  ⟨⟨by decide, by decide, by decide, by decide⟩,
    claim_C4 (stateWithCode "AB42CD" ldEx) "ab42cd" 50 "t1" ldEx (by decide) (by decide)
      (by decide) (by decide)⟩
